import Mathlib

/-!
Verification development for the Echo Journal backend core
(services/external/gemini_handler.py, services/external/mongodb_handler.py,
services/journal_service.py, services/dashboard_service.py,
services/user_service.py, services/anonymous_service.py).

Each Python function relevant to the verified properties is shallowly
embedded as a total Lean function.  External effects (the MongoDB driver
and the Gemini generation client) are modelled as explicit outcome
parameters: `Except Unit α` for a query that can raise, `Option String`
for a generation round trip that can fail or return empty text.
-/

namespace EchoJournal

/-! ## Character classes

The Python regex `([a-zA-Z\s]+)\s*-\s*(\d+(?:\.\d+)?)` uses the ASCII
letter class and the whitespace class `\s`; `str.strip()` trims the same
whitespace set. -/

def isAsciiLetter (c : Char) : Bool :=
  ('a' ≤ c && c ≤ 'z') || ('A' ≤ c && c ≤ 'Z')

def isPySpace (c : Char) : Bool :=
  c = ' ' || c = '\t' || c = '\n' || c = '\r' || c = '\x0b' || c = '\x0c'

def isLabelChar (c : Char) : Bool := isAsciiLetter c || isPySpace c

def isDigitChar (c : Char) : Bool := '0' ≤ c && c ≤ '9'

/-- Numeric value of a run of ASCII digit characters. -/
def digitsToNat (ds : List Char) : ℕ :=
  ds.foldl (fun a c => 10 * a + (c.toNat - 48)) 0

/-- Exact value of the decimal literal `ipart.fpart` (Python `float(...)`
applied to a string matched by `\d+(?:\.\d+)?`; the conversion never
fails on such a string, modelled exactly as the rational
`i + f / 10 ^ k`). -/
def decimalValue (ipart fpart : List Char) : ℚ :=
  mkRat (digitsToNat ipart * 10 ^ fpart.length + digitsToNat fpart) (10 ^ fpart.length)

/-- `str.strip()` on a list of characters: drop leading and trailing
characters satisfying `p`. -/
def stripWhile (p : Char → Bool) (cs : List Char) : List Char :=
  ((cs.dropWhile p).reverse.dropWhile p).reverse

/-- Python `str.strip()` (whitespace at both ends). -/
def pyStrip (s : String) : String :=
  String.mk (stripWhile isPySpace s.data)

/-! ## The regex scan of `generate_emotion_breakdown_async`

`re.findall(r"([a-zA-Z\s]+)\s*-\s*(\d+(?:\.\d+)?)", text)`.

A match attempt at a given position: group 1 is a greedy nonempty run of
letters/whitespace.  Because the group-1 class contains every `\s`
character, the maximal run absorbs any whitespace before the dash, the
`\s*` between group 1 and `-` always matches empty, and backtracking the
run can never create a match that the maximal run misses — so the
attempt succeeds exactly when the maximal run is followed directly by
`'-'`, then optional whitespace, then at least one digit, then an
optional `'.' <digits>` fractional part (taken greedily). -/
def matchEmotionAt (cs : List Char) : Option ((List Char × ℚ) × List Char) :=
  let lbl := cs.takeWhile isLabelChar
  let r1 := cs.dropWhile isLabelChar
  if lbl.isEmpty then none
  else
    match r1 with
    | '-' :: r2 =>
      let r3 := r2.dropWhile isPySpace
      let ipart := r3.takeWhile isDigitChar
      let r4 := r3.dropWhile isDigitChar
      if ipart.isEmpty then none
      else
        match r4 with
        | '.' :: r5 =>
          let fpart := r5.takeWhile isDigitChar
          let r6 := r5.dropWhile isDigitChar
          if fpart.isEmpty then some ((lbl, decimalValue ipart []), r4)
          else some ((lbl, decimalValue ipart fpart), r6)
        | _ => some ((lbl, decimalValue ipart []), r4)
    | _ => none

/-- `re.findall` scan: try a match at each position, left to right,
continuing after the end of every successful (non-overlapping) match.
Each successful match consumes at least one character, so `cs.length`
fuel always suffices. -/
def findAllEmotions : ℕ → List Char → List (List Char × ℚ)
  | 0, _ => []
  | _ + 1, [] => []
  | fuel + 1, c :: rest =>
    match matchEmotionAt (c :: rest) with
    | none => findAllEmotions fuel rest
    | some (m, r) => m :: findAllEmotions fuel r

/-! ## The dict-building loop of `generate_emotion_breakdown_async` -/

/-- Python dict assignment `d[k] = v`: update in place if the key is
present (keeping its position), else append. -/
def dictInsert : List (String × ℚ) → String → ℚ → List (String × ℚ)
  | [], k, v => [(k, v)]
  | (k', v') :: rest, k, v =>
    if k' = k then (k', v) :: rest else (k', v') :: dictInsert rest k v

/-- One iteration of the `for name, percent_str in matches` loop: strip
the label, keep the pair only when the percentage lies in [0, 100] (the
`float` conversion cannot fail on a regex-matched numeral, so the
`except ValueError` branch is dead). -/
def buildStep (d : List (String × ℚ)) (m : List Char × ℚ) : List (String × ℚ) :=
  if 0 ≤ m.2 ∧ m.2 ≤ 100 then dictInsert d (String.mk (stripWhile isPySpace m.1)) m.2
  else d

/-- The dict produced by the match-processing loop. -/
def buildEmotionDict (ms : List (List Char × ℚ)) : List (String × ℚ) :=
  ms.foldl buildStep []

/-- `pattern.findall(response.text)`. -/
def emotionMatches (s : String) : List (List Char × ℚ) :=
  findAllEmotions s.data.length s.data

/-- The parsing stage of `generate_emotion_breakdown_async`
(gemini_handler.py lines 104–131), applied to the raw response text.
Total: it never raises on malformed input; `none` is the sentinel
no-valid-data result. -/
def parseEmotionText (s : String) : Option (List (String × ℚ)) :=
  let ms := emotionMatches s
  if ms.isEmpty then none
  else
    let d := buildEmotionDict ms
    if d.isEmpty then none else some d

/-! ## Lemmas about the parsing stage -/

theorem dictInsert_mem {d : List (String × ℚ)} {k : String} {v : ℚ} {kv : String × ℚ}
    (h : kv ∈ dictInsert d k v) : kv ∈ d ∨ kv = (k, v) := by
  induction d with
  | nil => simpa [dictInsert] using h
  | cons hd tl ih =>
    obtain ⟨k', v'⟩ := hd
    rw [dictInsert] at h
    by_cases hk : k' = k
    · rw [if_pos hk] at h
      rcases List.mem_cons.mp h with h1 | h1
      · exact Or.inr (by simp [h1, hk])
      · exact Or.inl (List.mem_cons_of_mem _ h1)
    · rw [if_neg hk] at h
      rcases List.mem_cons.mp h with h1 | h1
      · exact Or.inl (h1 ▸ List.mem_cons_self _ _)
      · rcases ih h1 with h2 | h2
        · exact Or.inl (List.mem_cons_of_mem _ h2)
        · exact Or.inr h2

theorem buildStep_mem {d : List (String × ℚ)} {m : List Char × ℚ} {kv : String × ℚ}
    (h : kv ∈ buildStep d m) : kv ∈ d ∨ (0 ≤ kv.2 ∧ kv.2 ≤ 100) := by
  unfold buildStep at h
  by_cases hc : 0 ≤ m.2 ∧ m.2 ≤ 100
  · rw [if_pos hc] at h
    rcases dictInsert_mem h with h1 | h1
    · exact Or.inl h1
    · exact Or.inr (by simp [h1]; exact hc)
  · rw [if_neg hc] at h
    exact Or.inl h

/-- Every percentage stored by the match-processing loop passed the
range check, so it lies in [0, 100]. -/
theorem buildEmotionDict_percent_range (ms : List (List Char × ℚ)) :
    ∀ kv ∈ buildEmotionDict ms, 0 ≤ kv.2 ∧ kv.2 ≤ 100 := by
  suffices h : ∀ (ms : List (List Char × ℚ)) (init : List (String × ℚ)),
      (∀ kv ∈ init, 0 ≤ kv.2 ∧ kv.2 ≤ 100) →
      ∀ kv ∈ ms.foldl buildStep init, 0 ≤ kv.2 ∧ kv.2 ≤ 100 by
    intro kv hkv
    exact h ms [] (by simp) kv hkv
  intro ms
  induction ms with
  | nil =>
    intro init hinit kv hkv
    exact hinit kv (by simpa using hkv)
  | cons m tl ih =>
    intro init hinit kv hkv
    rw [List.foldl_cons] at hkv
    refine ih _ ?_ kv hkv
    intro kv' hkv'
    rcases buildStep_mem hkv' with h1 | h1
    · exact hinit kv' h1
    · exact h1

/-- The sentinel `none` is returned exactly when the scan finds no match
or every match is discarded by the range filter. -/
theorem parseEmotionText_eq_none_iff (s : String) :
    parseEmotionText s = none ↔
      (emotionMatches s = [] ∨ buildEmotionDict (emotionMatches s) = []) := by
  unfold parseEmotionText
  by_cases h1 : (emotionMatches s).isEmpty
  · rw [if_pos h1]
    simp [List.isEmpty_iff.mp h1]
  · rw [if_neg h1]
    by_cases h2 : (buildEmotionDict (emotionMatches s)).isEmpty
    · rw [if_pos h2]
      simp [List.isEmpty_iff.mp h2]
    · rw [if_neg h2]
      constructor
      · intro h
        exact absurd h (by simp)
      · intro h
        rcases h with h | h
        · exact absurd (List.isEmpty_iff.mpr h) h1
        · exact absurd (List.isEmpty_iff.mpr h) h2

/-- A successful parse is never the empty mapping. -/
theorem parseEmotionText_some_ne_nil {s : String} {d : List (String × ℚ)}
    (h : parseEmotionText s = some d) : d ≠ [] := by
  unfold parseEmotionText at h
  by_cases h1 : (emotionMatches s).isEmpty
  · rw [if_pos h1] at h; exact absurd h (by simp)
  · rw [if_neg h1] at h
    by_cases h2 : (buildEmotionDict (emotionMatches s)).isEmpty
    · rw [if_pos h2] at h; exact absurd h (by simp)
    · rw [if_neg h2] at h
      intro hd
      rw [Option.some_inj] at h
      exact h2 (List.isEmpty_iff.mpr (h ▸ hd))

/-- Every value in a successful parse lies in [0, 100]. -/
theorem parseEmotionText_range {s : String} {d : List (String × ℚ)}
    (h : parseEmotionText s = some d) : ∀ kv ∈ d, 0 ≤ kv.2 ∧ kv.2 ≤ 100 := by
  unfold parseEmotionText at h
  by_cases h1 : (emotionMatches s).isEmpty
  · rw [if_pos h1] at h; exact absurd h (by simp)
  · rw [if_neg h1] at h
    by_cases h2 : (buildEmotionDict (emotionMatches s)).isEmpty
    · rw [if_pos h2] at h; exact absurd h (by simp)
    · rw [if_neg h2, Option.some_inj] at h
      exact h ▸ buildEmotionDict_percent_range _

/-- C1: the parsing stage of `generate_emotion_breakdown_async` scans the
text for `<letters/spaces>-<number>` matches in first-occurrence order,
trims each label, filters percentages to [0, 100] with last-wins
duplicate resolution, never raises (it is a total function), and
returns the sentinel `none` exactly when no match survives.  The three
quoted inputs behave exactly as the claim states, and a duplicate-label
input confirms last-wins. -/
theorem C1_emotion_response_parsing :
    parseEmotionText "Happy-30,Excited-23,Disappoint-12,Curiosity-20,Calm-15" =
      some [("Happy", 30), ("Excited", 23), ("Disappoint", 12), ("Curiosity", 20),
            ("Calm", 15)] ∧
    parseEmotionText "Sad-150,Calm-40" = some [("Calm", 40)] ∧
    parseEmotionText "" = none ∧
    parseEmotionText "???!!! 123 ,,,==" = none ∧
    parseEmotionText "Happy-30,Happy-70" = some [("Happy", 70)] ∧
    (∀ s : String, parseEmotionText s = none ↔
      (emotionMatches s = [] ∨ buildEmotionDict (emotionMatches s) = [])) :=
  ⟨by decide, by decide, by decide, by decide, by decide,
   fun s => parseEmotionText_eq_none_iff s⟩

/-- Closed witness for C1: the sentinel-iff clause applied at a concrete
input whose only match is discarded by the range filter. -/
theorem C1_emotion_response_parsing_witness :
    parseEmotionText "Sad-150" = none :=
  (C1_emotion_response_parsing.2.2.2.2.2 "Sad-150").mpr (Or.inr (by decide))

/-! ## Calendar dates and the five-month window (journal_service.py) -/

/-- A calendar date at midnight UTC, as built by
`datetime(year, month, 1, tzinfo=timezone.utc)` and as stored in the
`created_at` field of journal documents (UTC). -/
structure SDate where
  year : ℤ
  month : ℤ
  day : ℤ
deriving DecidableEq

/-- Chronological key of a calendar date (the usual yyyymmdd encoding);
on valid dates it is order-isomorphic to the underlying timestamp order
used by the MongoDB range filter. -/
def SDate.key (d : SDate) : ℤ := d.year * 10000 + d.month * 100 + d.day

/-- `date(y, m, 1) ± relativedelta(months=n)` (dateutil): normalize the
zero-based month index `m - 1 + n`.  Python floor division by the
positive constant 12 coincides with Euclidean division, and day 1 is
valid in every month, so no day clamping occurs. -/
def addMonths (y m n : ℤ) : ℤ × ℤ :=
  (y + (m - 1 + n) / 12, (m - 1 + n) % 12 + 1)

/-- The window computed at journal_service.py lines 49–54: first day of
the month two calendar months before the requested month (inclusive
start) and first day of the month three calendar months after it
(exclusive end), both at 00:00 UTC. -/
def computePastWindow (y m : ℤ) : SDate × SDate :=
  (⟨(addMonths y m (-2)).1, (addMonths y m (-2)).2, 1⟩,
   ⟨(addMonths y m 3).1, (addMonths y m 3).2, 1⟩)

/-- A nonempty all-digit run parsed as a natural number. -/
def natDigits? (ds : List Char) : Option ℕ :=
  if ds ≠ [] ∧ ds.all isDigitChar then some (digitsToNat ds) else none

/-- Python `int(str)`: surrounding whitespace stripped, optional sign,
then a nonempty digit run; anything else raises `ValueError` (`none`).
(PEP 515 digit-grouping underscores are not modelled; no verified
property involves them.) -/
def pyToInt (s : String) : Option ℤ :=
  match stripWhile isPySpace s.data with
  | '+' :: ds => (natDigits? ds).map (fun n => (n : ℤ))
  | '-' :: ds => (natDigits? ds).map (fun n => -(n : ℤ))
  | ds => (natDigits? ds).map (fun n => (n : ℤ))

/-- HTTP error outcomes of `journal_service.get_past_entry_dates`. -/
inductive JournalErr where
  | badRequest
  | internalError
deriving DecidableEq

/-- `journal_service.get_past_entry_dates` (lines 31–74).  `db` is the
outcome of `mongodb_handler.get_distinct_journal_dates_in_range` as a
function of the computed window; `Except.error` models a raised
exception, which the service converts to a 500.  The
`datetime(year, month, 1, tzinfo=timezone.utc)` construction cannot
raise once month ∈ [1, 12] and year ∈ [1900, 2100] hold, so the only
`ValueError` sources are the two `int(...)` calls and the two explicit
range checks, all mapped to a 400. -/
def get_past_entry_dates (year_str month_str : String)
    (db : SDate × SDate → Except Unit (List String)) :
    Except JournalErr (List String) :=
  match pyToInt year_str, pyToInt month_str with
  | some y, some m =>
    if 1 ≤ m ∧ m ≤ 12 then
      if 1900 ≤ y ∧ y ≤ 2100 then
        match db (computePastWindow y m) with
        | .ok ds => .ok ds
        | .error _ => .error .internalError
      else .error .badRequest
    else .error .badRequest
  | _, _ => .error .badRequest

/-- C2: for every year in [1900, 2100] and month in [1, 12], the window
computed by `get_past_entry_dates` starts at the first day (00:00 UTC,
inclusive) of the calendar month two months before the requested month
and ends at the first day of the calendar month three months after it
(exclusive), by calendar-aware month arithmetic; requesting (2025, 02)
yields [2024-12-01, 2025-05-01). -/
theorem C2_past_window (y m : ℤ) (hy : 1900 ≤ y ∧ y ≤ 2100) (hm : 1 ≤ m ∧ m ≤ 12) :
    ((computePastWindow y m).1.day = 1 ∧ (computePastWindow y m).2.day = 1) ∧
    (1 ≤ (computePastWindow y m).1.month ∧ (computePastWindow y m).1.month ≤ 12 ∧
     12 * (computePastWindow y m).1.year + (computePastWindow y m).1.month =
       12 * y + m - 2) ∧
    (1 ≤ (computePastWindow y m).2.month ∧ (computePastWindow y m).2.month ≤ 12 ∧
     12 * (computePastWindow y m).2.year + (computePastWindow y m).2.month =
       12 * y + m + 3) ∧
    computePastWindow 2025 2 = (⟨2024, 12, 1⟩, ⟨2025, 5, 1⟩) := by
  refine ⟨⟨rfl, rfl⟩, ?_, ?_, by decide⟩ <;>
    simp only [computePastWindow, addMonths] <;> omega

/-- Closed witness for C2 at the claim's own example (2025, 02). -/
theorem C2_past_window_witness :
    computePastWindow 2025 2 = (⟨2024, 12, 1⟩, ⟨2025, 5, 1⟩) :=
  (C2_past_window 2025 2 (by decide) (by decide)).2.2.2

/-- C7: for inputs that parse as integers, `get_past_entry_dates` fails
with the 400 invalid-input error exactly when the month lies outside
[1, 12] or the year outside [1900, 2100], whatever the store does; in
particular ("2025", "13") is rejected with a 400 for every store. -/
theorem C7_invalid_input (year_str month_str : String) (y m : ℤ)
    (hy : pyToInt year_str = some y) (hm : pyToInt month_str = some m)
    (db : SDate × SDate → Except Unit (List String)) :
    (get_past_entry_dates year_str month_str db = .error .badRequest ↔
      (¬(1 ≤ m ∧ m ≤ 12) ∨ ¬(1900 ≤ y ∧ y ≤ 2100))) ∧
    (∀ db2, get_past_entry_dates "2025" "13" db2 = .error .badRequest) := by
  constructor
  · unfold get_past_entry_dates
    rw [hy, hm]
    dsimp only
    by_cases h1 : 1 ≤ m ∧ m ≤ 12
    · by_cases h2 : 1900 ≤ y ∧ y ≤ 2100
      · rw [if_pos h1, if_pos h2]
        cases hdb : db (computePastWindow y m) with
        | ok ds => simp [h1, h2]
        | error e => simp [h1, h2]
      · rw [if_pos h1, if_neg h2]
        simp [h2]
    · rw [if_neg h1]
      simp [h1]
  · intro db2
    rfl

/-- Closed witness for C7: ("2025", "13") yields the 400, while the
in-range ("2025", "02") never does. -/
theorem C7_invalid_input_witness :
    get_past_entry_dates "2025" "13" (fun _ => Except.ok []) = .error .badRequest ∧
    get_past_entry_dates "2025" "02" (fun _ => Except.ok []) ≠ .error .badRequest := by
  have h := C7_invalid_input "2025" "02" 2025 2 (by decide) (by decide)
    (fun _ => Except.ok [])
  refine ⟨h.2 (fun _ => Except.ok []), fun hbad => ?_⟩
  have h2 := h.1.mp hbad
  exact (by decide :
    ¬(¬((1 : ℤ) ≤ 2 ∧ (2 : ℤ) ≤ 12) ∨ ¬((1900 : ℤ) ≤ 2025 ∧ (2025 : ℤ) ≤ 2100))) h2

/-! ## MongoDB journal documents and the record-fetching handlers
    (mongodb_handler.py)

The driver is external: each handler takes the outcome of acquiring the
collection handle (`coll`, awaited before the `try` block, so a failure
there propagates as a raised exception) and the outcome of the query
itself (`q`; `Except.error` models a raised driver exception, which the
handler's `except` clause catches). -/

/-- A journal document as projected by the handlers: owner `UID`,
`created_at` timestamp (UTC), `prompt` text. -/
structure JDoc where
  UID : String
  created_at : SDate
  prompt : String
deriving DecidableEq

/-- Left-pad a numeral with zeros (`$dateToString` zero-pads `%Y`, `%m`,
`%d`). -/
def padNum (w : ℕ) (n : ℤ) : String :=
  let s := toString n
  if s.length < w then String.mk (List.replicate (w - s.length) '0') ++ s else s

/-- `$dateToString` with format `%Y-%m-%d` in timezone UTC. -/
def dateToString (d : SDate) : String :=
  padNum 4 d.year ++ "-" ++ padNum 2 d.month ++ "-" ++ padNum 2 d.day

/-- The aggregation pipeline of `get_distinct_journal_dates_in_range`:
`$match` on owner and the half-open window, `$project` to the UTC date
string, `$group` to distinct values, `$sort` ascending. -/
def distinctDatesPipeline (docs : List JDoc) (uid : String) (startD endD : SDate) :
    List String :=
  List.insertionSort (· ≤ ·)
    (((docs.filter (fun d =>
        d.UID == uid && decide (startD.key ≤ d.created_at.key) &&
          decide (d.created_at.key < endD.key))).map
      (fun d => dateToString d.created_at)).dedup)

/-- `mongodb_handler.get_distinct_journal_dates_in_range`
(lines 236–298).  A raised driver exception is caught and the handler
returns `[]`. -/
def get_distinct_journal_dates_in_range (coll : Except Unit Unit)
    (q : Except Unit (List JDoc)) (uid : String) (startD endD : SDate) :
    Except Unit (List String) :=
  match coll with
  | .error e => .error e
  | .ok _ =>
    match q with
    | .error _ => .ok []
    | .ok docs => .ok (distinctDatesPipeline docs uid startD endD)

/-- `mongodb_handler.get_journals_for_user_past_days` (lines 117–156):
the query outcome is the already-filtered, recency-sorted document
list; a raised driver exception is caught and the handler returns `[]`
(`return journals if journals else []`). -/
def get_journals_for_user_past_days (coll : Except Unit Unit)
    (q : Except Unit (List JDoc)) : Except Unit (List JDoc) :=
  match coll with
  | .error e => .error e
  | .ok _ =>
    match q with
    | .error _ => .ok []
    | .ok docs => .ok docs

/-- A weekly-reflection document (`weekly_reflection` may be absent). -/
structure WeeklyDoc where
  UID : String
  weekly_reflection : Option String
deriving DecidableEq

/-- `mongodb_handler.get_latest_weekly_reflection_for_user`
(lines 162–185): `q` is the outcome of `find_one` sorted by recency
(`none` when no document matches); a raised driver exception is caught
and the handler returns `None`. -/
def get_latest_weekly_reflection_for_user (coll : Except Unit Unit)
    (q : Except Unit (Option WeeklyDoc)) : Except Unit (Option WeeklyDoc) :=
  match coll with
  | .error e => .error e
  | .ok _ =>
    match q with
    | .error _ => .ok none
    | .ok r => .ok r

/-- C3 counterexample: contrary to the claim, a failed store-level query
does not propagate any error from the three record-fetching handlers —
with the collection handle available, each returns exactly the value it
returns for a legitimately empty store, so the two situations are
indistinguishable to the caller. -/
theorem C3_store_failure_counterexample :
    get_journals_for_user_past_days (.ok ()) (.error ()) =
      get_journals_for_user_past_days (.ok ()) (.ok []) ∧
    get_distinct_journal_dates_in_range (.ok ()) (.error ()) "u1"
        ⟨2024, 12, 1⟩ ⟨2025, 5, 1⟩ =
      get_distinct_journal_dates_in_range (.ok ()) (.ok []) "u1"
        ⟨2024, 12, 1⟩ ⟨2025, 5, 1⟩ ∧
    get_latest_weekly_reflection_for_user (.ok ()) (.error ()) =
      get_latest_weekly_reflection_for_user (.ok ()) (.ok none) ∧
    get_distinct_journal_dates_in_range (.ok ()) (.error ()) "u1"
        ⟨2024, 12, 1⟩ ⟨2025, 5, 1⟩ ≠ Except.error () :=
  ⟨rfl, rfl, rfl, fun h => Except.noConfusion h⟩

/-- C3 amended: store-level query failures are swallowed inside the
handlers — each returns the empty result (`[]` / `None`), identical to
a legitimately empty store, and no error propagates from a failed
query; only a failure to acquire the collection handle (which happens
before the `try` block) propagates to the caller, where it is converted
to a server error. -/
theorem C3_store_failure_amended (uid : String) (startD endD : SDate)
    (e : Unit) (q : Except Unit (List JDoc)) (qw : Except Unit (Option WeeklyDoc)) :
    get_journals_for_user_past_days (.ok ()) (.error ()) = .ok [] ∧
    get_distinct_journal_dates_in_range (.ok ()) (.error ()) uid startD endD = .ok [] ∧
    get_latest_weekly_reflection_for_user (.ok ()) (.error ()) = .ok none ∧
    get_journals_for_user_past_days (.error e) q = .error e ∧
    get_distinct_journal_dates_in_range (.error e) q uid startD endD = .error e ∧
    get_latest_weekly_reflection_for_user (.error e) qw = .error e :=
  ⟨rfl, rfl, rfl, rfl, rfl, rfl⟩

/-- C8: for a fixed store snapshot and window, the distinct-dates query
is deterministic (re-querying returns the same sequence), returns no
duplicate date strings, is sorted lexicographically ascending, and each
element is the UTC `YYYY-MM-DD` string of the `created_at` of some
record owned by `uid` inside `[start, end)`. -/
theorem C8_distinct_dates (docs : List JDoc) (uid : String) (startD endD : SDate) :
    (get_distinct_journal_dates_in_range (.ok ()) (.ok docs) uid startD endD =
      get_distinct_journal_dates_in_range (.ok ()) (.ok docs) uid startD endD) ∧
    (distinctDatesPipeline docs uid startD endD).Nodup ∧
    (distinctDatesPipeline docs uid startD endD).Sorted (· ≤ ·) ∧
    (∀ s ∈ distinctDatesPipeline docs uid startD endD, ∃ d ∈ docs,
      d.UID = uid ∧ startD.key ≤ d.created_at.key ∧ d.created_at.key < endD.key ∧
      s = dateToString d.created_at) := by
  refine ⟨rfl, ?_, ?_, ?_⟩
  · exact (List.perm_insertionSort _ _).nodup_iff.mpr (List.nodup_dedup _)
  · exact List.sorted_insertionSort _ _
  · intro s hs
    unfold distinctDatesPipeline at hs
    rw [(List.perm_insertionSort _ _).mem_iff, List.mem_dedup] at hs
    rcases List.mem_map.mp hs with ⟨d, hd, rfl⟩
    rcases List.mem_filter.mp hd with ⟨hdocs, hpred⟩
    simp only [Bool.and_eq_true, beq_iff_eq, decide_eq_true_eq] at hpred
    exact ⟨d, hdocs, hpred.1.1, hpred.1.2, hpred.2, rfl⟩

/-! ## Dashboard service: emotional breakdown (dashboard_service.py) -/

/-- `models.dashboard.EmotionPercentage`: a (label, percentage) response
item.  Constructing it succeeds for every (string, rational) pair — the
Pydantic model declares no range validator on `percentage`. -/
structure EmotionPercentage where
  emotion : String
  percentage : ℚ
deriving DecidableEq

/-- `gemini_handler.generate_emotion_breakdown_async` (lines 63–139):
`None` for an empty prompt list; otherwise `raw` is the text of the
generation response (`none` models a raised API error, caught and
turned into `None`, or an empty/invalid response object), which is fed
to the parsing stage. -/
def generate_emotion_breakdown_async (journal_prompts : List String)
    (raw : Option String) : Option (List (String × ℚ)) :=
  if journal_prompts.isEmpty then none
  else
    match raw with
    | none => none
    | some t => parseEmotionText t

/-- The error outcomes of `get_emotional_breakdown`, one per distinct
`HTTPException` site (plus the uncaught store exception). -/
inductive DashErr where
  | noRecentData
  | processingFailure
  | generationFailed
  | noValidEmotions
  | responseShapeInvalid
  | storeException
deriving DecidableEq

/-- Steps 4–5 of `get_emotional_breakdown` (lines 57–87): build the
`EmotionPercentage` list (construction cannot fail, so the
`except`/`continue` inside the loop is dead), raise 500 if it is empty,
then let the Pydantic `min_length=3, max_length=5` validation of
`EmotionalBreakdownResponse` accept or reject it — never truncating or
padding. -/
def formatBreakdown (d : List (String × ℚ)) : Except DashErr (List EmotionPercentage) :=
  if (d.map fun kv => EmotionPercentage.mk kv.1 kv.2).isEmpty then
    .error .noValidEmotions
  else if 3 ≤ (d.map fun kv => EmotionPercentage.mk kv.1 kv.2).length ∧
      (d.map fun kv => EmotionPercentage.mk kv.1 kv.2).length ≤ 5 then
    .ok (d.map fun kv => EmotionPercentage.mk kv.1 kv.2)
  else .error .responseShapeInvalid

/-- `dashboard_service.get_emotional_breakdown` (lines 10–87), composed
with the two external calls it makes. -/
def get_emotional_breakdown (coll : Except Unit Unit) (q : Except Unit (List JDoc))
    (raw : Option String) : Except DashErr (List EmotionPercentage) :=
  match get_journals_for_user_past_days coll q with
  | .error _ => .error .storeException
  | .ok recent =>
    if recent.isEmpty then .error .noRecentData
    else if ((recent.filter (fun j => j.prompt != "")).map JDoc.prompt).isEmpty then
      .error .processingFailure
    else
      match generate_emotion_breakdown_async
          ((recent.filter (fun j => j.prompt != "")).map JDoc.prompt) raw with
      | none => .error .generationFailed
      | some d => formatBreakdown d

/-! ## Lemmas about the breakdown pipeline -/

theorem generate_emotion_breakdown_async_some {ps : List String} {raw : Option String}
    {d : List (String × ℚ)} (h : generate_emotion_breakdown_async ps raw = some d) :
    ∃ t, raw = some t ∧ parseEmotionText t = some d := by
  unfold generate_emotion_breakdown_async at h
  by_cases h1 : ps.isEmpty
  · rw [if_pos h1] at h; exact absurd h (by simp)
  · rw [if_neg h1] at h
    cases raw with
    | none => exact absurd h (by simp)
    | some t => exact ⟨t, rfl, h⟩

theorem formatBreakdown_ok {d : List (String × ℚ)} {res : List EmotionPercentage}
    (h : formatBreakdown d = .ok res) :
    res = d.map (fun kv => EmotionPercentage.mk kv.1 kv.2) ∧
    3 ≤ res.length ∧ res.length ≤ 5 := by
  unfold formatBreakdown at h
  by_cases h1 : (d.map fun kv => EmotionPercentage.mk kv.1 kv.2).isEmpty
  · rw [if_pos h1] at h; exact absurd h (by simp)
  · rw [if_neg h1] at h
    by_cases h2 : 3 ≤ (d.map fun kv => EmotionPercentage.mk kv.1 kv.2).length ∧
        (d.map fun kv => EmotionPercentage.mk kv.1 kv.2).length ≤ 5
    · rw [if_pos h2] at h
      injection h with h
      exact ⟨h.symm, h ▸ h2.1, h ▸ h2.2⟩
    · rw [if_neg h2] at h; exact absurd h (by simp)

theorem formatBreakdown_shape_invalid {d : List (String × ℚ)} (hne : d ≠ [])
    (hlen : ¬(3 ≤ d.length ∧ d.length ≤ 5)) :
    formatBreakdown d = .error .responseShapeInvalid := by
  unfold formatBreakdown
  rw [if_neg (by simpa using hne), if_neg (by simpa [List.length_map] using hlen)]

theorem formatBreakdown_ne_noValid {d : List (String × ℚ)} (hne : d ≠ []) :
    formatBreakdown d ≠ .error .noValidEmotions := by
  unfold formatBreakdown
  rw [if_neg (by simpa using hne)]
  by_cases h2 : 3 ≤ (d.map fun kv => EmotionPercentage.mk kv.1 kv.2).length ∧
      (d.map fun kv => EmotionPercentage.mk kv.1 kv.2).length ≤ 5
  · rw [if_pos h2]; simp
  · rw [if_neg h2]; simp

/-- Inversion: a successful breakdown came from a successful generation
round trip whose text parsed to some mapping `d`, and the result is the
formatted `d`. -/
theorem get_emotional_breakdown_ok {coll : Except Unit Unit} {q : Except Unit (List JDoc)}
    {raw : Option String} {res : List EmotionPercentage}
    (h : get_emotional_breakdown coll q raw = .ok res) :
    ∃ t d, raw = some t ∧ parseEmotionText t = some d ∧ formatBreakdown d = .ok res := by
  unfold get_emotional_breakdown at h
  cases hj : get_journals_for_user_past_days coll q with
  | error e => rw [hj] at h; exact absurd h (by simp)
  | ok recent =>
    rw [hj] at h
    dsimp only at h
    by_cases h1 : recent.isEmpty
    · rw [if_pos h1] at h; exact absurd h (by simp)
    · rw [if_neg h1] at h
      by_cases h2 : ((recent.filter (fun j => j.prompt != "")).map JDoc.prompt).isEmpty
      · rw [if_pos h2] at h; exact absurd h (by simp)
      · rw [if_neg h2] at h
        cases hg : generate_emotion_breakdown_async
            ((recent.filter (fun j => j.prompt != "")).map JDoc.prompt) raw with
        | none => rw [hg] at h; exact absurd h (by simp)
        | some d =>
          rw [hg] at h
          rcases generate_emotion_breakdown_async_some hg with ⟨t, hraw, hparse⟩
          exact ⟨t, d, hraw, hparse, h⟩

/-- C4: every successful emotional breakdown contains between 3 and 5
items, each with a percentage in [0, 100]; when the parsed item count
falls outside [3, 5] (with the pipeline otherwise reaching the
formatting step) the operation surfaces the response-shape server error
instead; and a successful result is always the complete formatted
parse — never a truncated or padded list. -/
theorem C4_breakdown_shape (coll : Except Unit Unit) (q : Except Unit (List JDoc))
    (raw : Option String) :
    (∀ res, get_emotional_breakdown coll q raw = .ok res →
      3 ≤ res.length ∧ res.length ≤ 5 ∧
      ∀ e ∈ res, 0 ≤ e.percentage ∧ e.percentage ≤ 100) ∧
    (∀ recent t d, coll = .ok () → q = .ok recent → ¬recent.isEmpty →
      ¬((recent.filter (fun j => j.prompt != "")).map JDoc.prompt).isEmpty →
      raw = some t → parseEmotionText t = some d →
      ¬(3 ≤ d.length ∧ d.length ≤ 5) →
      get_emotional_breakdown coll q raw = .error .responseShapeInvalid) ∧
    (∀ t d res, raw = some t → parseEmotionText t = some d →
      get_emotional_breakdown coll q raw = .ok res →
      res = d.map (fun kv => EmotionPercentage.mk kv.1 kv.2)) := by
  refine ⟨?_, ?_, ?_⟩
  · intro res h
    rcases get_emotional_breakdown_ok h with ⟨t, d, hraw, hparse, hfmt⟩
    rcases formatBreakdown_ok hfmt with ⟨hres, h3, h5⟩
    refine ⟨h3, h5, ?_⟩
    intro e he
    rw [hres] at he
    rcases List.mem_map.mp he with ⟨kv, hkv, rfl⟩
    exact parseEmotionText_range hparse kv hkv
  · intro recent t d hcoll hq hrec hpr hraw hparse hlen
    subst hcoll; subst hq; subst hraw
    unfold get_emotional_breakdown
    rw [show get_journals_for_user_past_days (Except.ok ()) (Except.ok recent) =
        Except.ok recent from rfl]
    dsimp only
    rw [if_neg hrec, if_neg hpr]
    unfold generate_emotion_breakdown_async
    rw [if_neg hpr]
    dsimp only
    rw [hparse]
    exact formatBreakdown_shape_invalid (parseEmotionText_some_ne_nil hparse) hlen
  · intro t d res hraw hparse h
    rcases get_emotional_breakdown_ok h with ⟨t', d', hraw', hparse', hfmt⟩
    rw [hraw] at hraw'
    rw [Option.some_inj] at hraw'
    rw [hraw'] at hparse
    rw [hparse] at hparse'
    rw [Option.some_inj] at hparse'
    exact hparse' ▸ (formatBreakdown_ok hfmt).1

/-- Closed witness for C4: a three-emotion parse yields a successful,
bounded breakdown. -/
theorem C4_breakdown_shape_witness :
    (3 : ℕ) ≤ ([⟨"Happy", 30⟩, ⟨"Sad", 40⟩, ⟨"Calm", 30⟩] : List EmotionPercentage).length ∧
    ([⟨"Happy", 30⟩, ⟨"Sad", 40⟩, ⟨"Calm", 30⟩] : List EmotionPercentage).length ≤ 5 ∧
    ∀ e ∈ ([⟨"Happy", 30⟩, ⟨"Sad", 40⟩, ⟨"Calm", 30⟩] : List EmotionPercentage),
      0 ≤ e.percentage ∧ e.percentage ≤ 100 :=
  (C4_breakdown_shape (.ok ()) (.ok [⟨"u1", ⟨2025, 1, 1⟩, "hello"⟩])
    (some "Happy-30,Sad-40,Calm-30")).1
    [⟨"Happy", 30⟩, ⟨"Sad", 40⟩, ⟨"Calm", 30⟩] (by rfl)

/-- C9: the "AI analysis returned no valid emotions" 500-branch of
`get_emotional_breakdown` is unreachable — the analysis handler returns
`None` or a nonempty mapping, `EmotionPercentage` construction succeeds
for every pair, and formatting preserves the item count. -/
theorem C9_no_valid_emotions_unreachable (coll : Except Unit Unit)
    (q : Except Unit (List JDoc)) (raw : Option String) :
    get_emotional_breakdown coll q raw ≠ .error .noValidEmotions := by
  unfold get_emotional_breakdown
  cases hj : get_journals_for_user_past_days coll q with
  | error e => simp
  | ok recent =>
    dsimp only
    by_cases h1 : recent.isEmpty
    · rw [if_pos h1]; simp
    · rw [if_neg h1]
      by_cases h2 : ((recent.filter (fun j => j.prompt != "")).map JDoc.prompt).isEmpty
      · rw [if_pos h2]; simp
      · rw [if_neg h2]
        cases hg : generate_emotion_breakdown_async
            ((recent.filter (fun j => j.prompt != "")).map JDoc.prompt) raw with
        | none => simp
        | some d =>
          rcases generate_emotion_breakdown_async_some hg with ⟨t, _, hparse⟩
          exact formatBreakdown_ne_noValid (parseEmotionText_some_ne_nil hparse)

/-! ## Anonymous reflection (gemini_handler.py lines 142–194,
    anonymous_service.py) -/

/-- `.strip('"')`: drop double-quote characters from both ends. -/
def stripQuoteChars (s : String) : String :=
  String.mk (stripWhile (fun c => c = '"') s.data)

/-- `gemini_handler.generate_single_reflection_async` (lines 142–194):
issues one call to the generation service.  `svcResp` is the outcome of
that single call — `none` for a raised API error (caught and mapped to
`None`) or a response object without text; the truthiness check
`if response and ... and response.text` sends an empty-text response to
the `None` branch too.  The second component counts generation calls
issued: always exactly one, no retries. -/
def generate_single_reflection_async (svcResp : Option String) : Option String × ℕ :=
  match svcResp with
  | none => (none, 1)
  | some t => if t = "" then (none, 1) else (some (stripQuoteChars (pyStrip t)), 1)

/-- The error outcome of `process_anonymous_reflection` (HTTP 500). -/
inductive AnonErr where
  | generationFailed
deriving DecidableEq

/-- `anonymous_service.process_anonymous_reflection` (lines 10–38),
returning the response (or error) together with the generation call
count. -/
def process_anonymous_reflection (svcResp : Option String) : Except AnonErr String × ℕ :=
  match generate_single_reflection_async svcResp with
  | (none, n) => (.error .generationFailed, n)
  | (some t, n) => (.ok t, n)

/-- C5: the anonymous-reflection path issues exactly one generation call
(no retries); a failed or empty generation response surfaces as the
generation-failed server error, never as a success payload; and a
successful response text is returned with leading/trailing whitespace
stripped and then wrapping double-quote characters stripped. -/
theorem C5_anonymous_reflection (svcResp : Option String) :
    (process_anonymous_reflection svcResp).2 = 1 ∧
    ((svcResp = none ∨ svcResp = some "") →
      (process_anonymous_reflection svcResp).1 = .error .generationFailed) ∧
    (∀ t, svcResp = some t → t ≠ "" →
      (process_anonymous_reflection svcResp).1 = .ok (stripQuoteChars (pyStrip t))) := by
  refine ⟨?_, ?_, ?_⟩
  · cases svcResp with
    | none => rfl
    | some t =>
      by_cases h : t = "" <;>
        simp [process_anonymous_reflection, generate_single_reflection_async, h]
  · rintro (rfl | rfl) <;> rfl
  · intro t ht hne
    subst ht
    simp [process_anonymous_reflection, generate_single_reflection_async, hne]

/-- Closed witness for C5: a whitespace-and-quote-wrapped response is
unwrapped; the single call count is 1; a failed call yields the error. -/
theorem C5_anonymous_reflection_witness :
    (process_anonymous_reflection (some " \"You showed up today.\" ")).1 =
      .ok "You showed up today." ∧
    (process_anonymous_reflection (some " \"You showed up today.\" ")).2 = 1 ∧
    (process_anonymous_reflection none).1 = .error .generationFailed := by
  refine ⟨?_, (C5_anonymous_reflection (some " \"You showed up today.\" ")).1,
    (C5_anonymous_reflection none).2.1 (Or.inl rfl)⟩
  have h := (C5_anonymous_reflection (some " \"You showed up today.\" ")).2.2
    " \"You showed up today.\" " rfl (by decide)
  rw [h]
  rfl

/-! ## User registry (models/user.py, mongodb_handler.py,
    user_service.py) -/

/-- A raw `userdata` document.  Beyond the queried `UID`, `Uname` is the
only required `UserInDB` field, so it is the representable way a stored
document can fail validation; `Ustreak`/`UL_streak` default to 0 and
extra fields are allowed (`model_config extra: allow`). -/
structure RawUser where
  UID : String
  Uname : Option String
  Ustreak : Option ℤ
  UL_streak : Option ℤ
deriving DecidableEq

/-- `models.user.UserInDB` after successful validation. -/
structure UserInDB where
  UID : String
  Uname : String
  Ustreak : ℤ
  UL_streak : ℤ
deriving DecidableEq

/-- `UserInDB(**user_doc)`: fails exactly when the required `Uname` is
absent; the streak fields default to 0. -/
def parseUserInDB (d : RawUser) : Option UserInDB :=
  match d.Uname with
  | none => none
  | some n => some ⟨d.UID, n, d.Ustreak.getD 0, d.UL_streak.getD 0⟩

/-- `mongodb_handler.get_user_by_uid` (lines 46–67): `find_one` on
`{"UID": uid}` (first matching document in natural order), then the
Pydantic validation; a validation error is caught and `None` is
returned. -/
def get_user_by_uid (store : List RawUser) (uid : String) : Option UserInDB :=
  match store.find? (fun d => d.UID == uid) with
  | none => none
  | some doc => parseUserInDB doc

/-- `mongodb_handler.create_new_user` (lines 69–114): build the new
document with both streaks 0, `insert_one` (append to the store), then
re-read via `get_user_by_uid`; a failed re-read raises `ValueError`
("Could not retrieve after insert").  Returns the outcome together with
the post-insert store. -/
def create_new_user (store : List RawUser) (uid uname : String) :
    Except Unit UserInDB × List RawUser :=
  match get_user_by_uid (store ++ [⟨uid, some uname, some 0, some 0⟩]) uid with
  | some u => (.ok u, store ++ [⟨uid, some uname, some 0, some 0⟩])
  | none => (.error (), store ++ [⟨uid, some uname, some 0, some 0⟩])

/-- HTTP error outcomes of the user service. -/
inductive UserErr where
  | notFound
  | conflict
  | serverError
deriving DecidableEq

/-- `models.user.UserResponse` payload. -/
structure UserResponse where
  UID : String
  Uname : String
  Ustreak : ℤ
  UL_streak : ℤ
deriving DecidableEq

/-- `user_service.get_user_info` (lines 10–39). -/
def get_user_info (store : List RawUser) (uid : String) : Except UserErr UserResponse :=
  match get_user_by_uid store uid with
  | none => .error .notFound
  | some u => .ok ⟨u.UID, u.Uname, u.Ustreak, u.UL_streak⟩

/-- `user_service.register_user` (lines 41–84): existence check, then
create (insert + re-read); the handler's `ValueError` becomes a 500,
with the insert already performed. -/
def register_user (store : List RawUser) (uid uname : String) :
    Except UserErr UserResponse × List RawUser :=
  match get_user_by_uid store uid with
  | some _ => (.error .conflict, store)
  | none =>
    match create_new_user store uid uname with
    | (.ok u, store') => (.ok ⟨u.UID, u.Uname, u.Ustreak, u.UL_streak⟩, store')
    | (.error _, store') => (.error .serverError, store')

/-- C6: registering a fresh UID creates and returns a profile with both
streak counters 0, appending exactly the new document to the store; an
immediate second registration of the same UID fails with the 409
conflict and leaves the store unchanged. -/
theorem C6_register_twice (store : List RawUser) (uid uname uname2 : String)
    (hfree : ∀ d ∈ store, d.UID ≠ uid) :
    (register_user store uid uname).1 = .ok ⟨uid, uname, 0, 0⟩ ∧
    (register_user store uid uname).2 =
      store ++ [⟨uid, some uname, some 0, some 0⟩] ∧
    register_user (register_user store uid uname).2 uid uname2 =
      (.error .conflict, (register_user store uid uname).2) := by
  have h0 : store.find? (fun d => d.UID == uid) = none :=
    List.find?_eq_none.mpr (fun x hx => by simpa using hfree x hx)
  have h1 : get_user_by_uid store uid = none := by
    unfold get_user_by_uid
    rw [h0]
  have h2 : (store ++ [(⟨uid, some uname, some 0, some 0⟩ : RawUser)]).find?
      (fun d => d.UID == uid) = some ⟨uid, some uname, some 0, some 0⟩ := by
    rw [List.find?_append, h0, List.find?_cons_of_pos _ (by simp)]
    rfl
  have h3 : get_user_by_uid (store ++ [(⟨uid, some uname, some 0, some 0⟩ : RawUser)])
      uid = some ⟨uid, uname, 0, 0⟩ := by
    unfold get_user_by_uid
    rw [h2]
    rfl
  have h4 : register_user store uid uname =
      (.ok ⟨uid, uname, 0, 0⟩, store ++ [⟨uid, some uname, some 0, some 0⟩]) := by
    unfold register_user
    rw [h1]
    unfold create_new_user
    rw [h3]
  refine ⟨by rw [h4], by rw [h4], ?_⟩
  rw [h4]
  unfold register_user
  rw [h3]

/-- Closed witness for C6: double registration on the empty store. -/
theorem C6_register_twice_witness :
    (register_user [] "u1" "Gary").1 = .ok ⟨"u1", "Gary", 0, 0⟩ ∧
    register_user (register_user [] "u1" "Gary").2 "u1" "Gary" =
      (.error .conflict, (register_user [] "u1" "Gary").2) :=
  ⟨(C6_register_twice [] "u1" "Gary" "Gary" (by simp)).1,
   (C6_register_twice [] "u1" "Gary" "Gary" (by simp)).2.2⟩

/-- C10: when the first stored document for a UID fails `UserInDB`
validation, `get_user_by_uid` returns `None`; consequently
`get_user_info` reports the 404 not-found, and `register_user` treats
the UID as free and proceeds to attempt the insert — appending the new
document to the store and not returning the 409 conflict (the
post-insert re-read finds the corrupt document first, so registration
ends in the handler's `ValueError`, mapped to a 500). -/
theorem C10_corrupt_profile (store : List RawUser) (uid uname : String) (doc : RawUser)
    (hfind : store.find? (fun d => d.UID == uid) = some doc)
    (hcorrupt : parseUserInDB doc = none) :
    get_user_by_uid store uid = none ∧
    get_user_info store uid = .error .notFound ∧
    (register_user store uid uname).2 =
      store ++ [⟨uid, some uname, some 0, some 0⟩] ∧
    (register_user store uid uname).1 = .error .serverError := by
  have h1 : get_user_by_uid store uid = none := by
    unfold get_user_by_uid
    rw [hfind]
    exact hcorrupt
  have h2 : get_user_by_uid (store ++ [(⟨uid, some uname, some 0, some 0⟩ : RawUser)])
      uid = none := by
    unfold get_user_by_uid
    rw [List.find?_append, hfind]
    exact hcorrupt
  have h4 : register_user store uid uname =
      (.error .serverError, store ++ [⟨uid, some uname, some 0, some 0⟩]) := by
    unfold register_user
    rw [h1]
    unfold create_new_user
    rw [h2]
  refine ⟨h1, ?_, by rw [h4], by rw [h4]⟩
  unfold get_user_info
  rw [h1]

/-- Closed witness for C10: a store whose only document for "u1" lacks
the required `Uname`. -/
theorem C10_corrupt_profile_witness :
    get_user_by_uid [⟨"u1", none, none, none⟩] "u1" = none ∧
    get_user_info [⟨"u1", none, none, none⟩] "u1" = .error .notFound ∧
    (register_user [⟨"u1", none, none, none⟩] "u1" "Gary").2 =
      [⟨"u1", none, none, none⟩, ⟨"u1", some "Gary", some 0, some 0⟩] :=
  ⟨(C10_corrupt_profile [⟨"u1", none, none, none⟩] "u1" "Gary"
      ⟨"u1", none, none, none⟩ rfl rfl).1,
   (C10_corrupt_profile [⟨"u1", none, none, none⟩] "u1" "Gary"
      ⟨"u1", none, none, none⟩ rfl rfl).2.1,
   (C10_corrupt_profile [⟨"u1", none, none, none⟩] "u1" "Gary"
      ⟨"u1", none, none, none⟩ rfl rfl).2.2.1⟩

end EchoJournal
